import Mathlib

/-!
Verification development for the SweTrack fleet-tracking integration
(`swetrack_extended.py` CLI and the `custom_components/swetrack` Home
Assistant integration).

The Python code is shallowly embedded: JSON values become an inductive
`Json` type, Python `dict.get`, truthiness, `or`-chains and the
exceptions the code can raise (`AttributeError`, `TypeError`,
`RuntimeError`, `ValueError`, `SweTrackApiError`) are modelled
explicitly, and the HTTP layer is abstracted as an oracle giving the
decoded JSON value each request would produce.
-/

namespace SweTrack

/-- Decoded JSON values, as produced by `resp.json()`.  Numbers are
modelled as integers (the fields the code inspects — pages, flags, row
counts — are integral). -/
inductive Json where
  | null
  | bool (b : Bool)
  | num (n : Int)
  | str (s : String)
  | arr (xs : List Json)
  | obj (fields : List (String × Json))

mutual

/-- Python `==` on JSON values (structural equality). -/
def Json.beq : Json → Json → Bool
  | .null, .null => true
  | .bool a, .bool b => a == b
  | .num a, .num b => a == b
  | .str a, .str b => a == b
  | .arr xs, .arr ys => Json.beqList xs ys
  | .obj fs, .obj gs => Json.beqObj fs gs
  | _, _ => false

def Json.beqList : List Json → List Json → Bool
  | [], [] => true
  | x :: xs, y :: ys => Json.beq x y && Json.beqList xs ys
  | _, _ => false

def Json.beqObj : List (String × Json) → List (String × Json) → Bool
  | [], [] => true
  | (k, v) :: fs, (l, w) :: gs => k == l && Json.beq v w && Json.beqObj fs gs
  | _, _ => false

end

/-- First-match lookup in a JSON object's field list (Python dict keys
are unique, so first match is the dict lookup). -/
def lookupField : List (String × Json) → String → Option Json
  | [], _ => none
  | (k, v) :: rest, key => if k = key then some v else lookupField rest key

/-- Python truthiness of a JSON value (`bool(x)`). -/
def Json.truthy : Json → Bool
  | .null => false
  | .bool b => b
  | .num n => n != 0
  | .str s => s != ""
  | .arr xs => !xs.isEmpty
  | .obj fs => !fs.isEmpty

/-- `isinstance(x, dict)`. -/
def Json.isObj : Json → Bool
  | .obj _ => true
  | _ => false

/-- `isinstance(x, list)`. -/
def Json.isArr : Json → Bool
  | .arr _ => true
  | _ => false

/-- `isinstance(x, int)` together with the int value (Python `bool` is
a subclass of `int`, so booleans count). -/
def Json.asInt? : Json → Option Int
  | .num n => some n
  | .bool b => some (if b then 1 else 0)
  | _ => none

/-- The Python exceptions the embedded code can raise. -/
inductive PyErr where
  | attributeError
  | typeError
  | valueError
  | runtimeError (detail : Json)
  | apiError (detail : Json)
  | httpError (status : Nat) (data : Json)
  | unexpectedResp (data : Json)

/-- `x.get(k)`: dict lookup returning `None` (here `none`) when the key
is absent, raising `AttributeError` when `x` is not a dict. -/
def pyGet (x : Json) (k : String) : Except PyErr (Option Json) :=
  match x with
  | .obj fs => .ok (lookupField fs k)
  | _ => .error .attributeError

/-! ## `swetrack_extended.py`: `fetch_extended_all_pages`

The HTTP layer (`api_post`) is abstracted as a server oracle
`Nat → Json` giving the decoded payload of the request for each page
number; the device id, type, time window and pagesize only shape the
request body, so they are absorbed into the oracle.  The `while True`
loop is given explicit fuel (`none` = the loop did not terminate within
the fuel). -/

/-- Per-type row extraction from the page's `data` object — the
`if isinstance(data, dict): ... data.get("positions", []) ...`
dispatch of `fetch_extended_all_pages` (identical in the coordinator's
`_extract_extended_rows`).  For a non-dict `data` the Python `rows`
variable keeps its initial `[]`. -/
def extractRaw (data : Json) (typ : String) : Json :=
  match data with
  | .obj fs =>
    if typ = "position" then (lookupField fs "positions").getD (.arr [])
    else if typ = "voltage" then (lookupField fs "voltage").getD (.arr [])
    else
      let a := (lookupField fs typ).getD .null
      let b := (lookupField fs (typ ++ "s")).getD .null
      if a.truthy then a else if b.truthy then b else .arr []
  | _ => .arr []

/-- The CLI's coercion of the extracted value:
`if rows is None: rows = []` then
`if not isinstance(rows, list): rows = [rows]`. -/
def cliCoerceRows : Json → List Json
  | .null => []
  | .arr xs => xs
  | j => [j]

/-- `data = payload.get("data", {}) or {}` followed by extraction and
the CLI's coercion; `AttributeError` when the payload is not a dict. -/
def extractRowsOfPayload (payload : Json) (typ : String) :
    Except PyErr (List Json) := do
  let data0 := (← pyGet payload "data").getD (.obj [])
  let data := if data0.truthy then data0 else .obj []
  return cliCoerceRows (extractRaw data typ)

/-- `pagination = payload.get("pagination") or
payload.get("data", {}).get("pagination") or {}`.  Note the second
lookup applies `.get` to the raw `data` value without coercing it to a
dict first, so a present non-dict `data` raises `AttributeError` here. -/
def computePagination (payload : Json) : Except PyErr Json := do
  let v1 := (← pyGet payload "pagination").getD .null
  if v1.truthy then return v1
  let d := (← pyGet payload "data").getD (.obj [])
  let v2 := (← pyGet d "pagination").getD .null
  if v2.truthy then return v2
  return .obj []

/-- `cur_page = pagination.get("page", page)`: the pagination
descriptor's `page` field when present, else the local page counter. -/
def curPageOf (pag : Json) (page : Nat) : Except PyErr Json := do
  return ((← pyGet pag "page").getD (.num (page : Int)))

/-- What one iteration of the loop computes from the page payload
before the stop conditions are checked. -/
structure PageData where
  rows : List Json
  meta : Json
  total_pages : Option Json
  cur_page : Json

/-- One page's processing in `fetch_extended_all_pages`, in source
order: the `success` check (raising `RuntimeError` with
`payload.get('error') or payload` as detail when falsy), row
extraction, `last_meta = payload.get("meta", {}) or {}`, the
pagination descriptor and the `total_pages`/`cur_page` lookups. -/
def processPage (payload : Json) (typ : String) (page : Nat) :
    Except PyErr PageData := do
  let succ0 := (← pyGet payload "success").getD .null
  if !succ0.truthy then
    let ev := (← pyGet payload "error").getD .null
    throw (.runtimeError (if ev.truthy then ev else payload))
  let rows ← extractRowsOfPayload payload typ
  let meta0 := (← pyGet payload "meta").getD (.obj [])
  let meta := if meta0.truthy then meta0 else .obj []
  let pag ← computePagination payload
  let tp := (← pyGet pag "total_pages")
  let cur ← curPageOf pag page
  return ⟨rows, meta, tp, cur⟩

/-- The value a terminating `fetch_extended_all_pages` call produces.
The `max_rows` and empty-page stops return the 2-tuple
`(all_rows, last_meta)`; the `total_pages` stop returns the 3-tuple
`(all_rows, last_meta, raw_pages)`. -/
inductive FetchResult where
  | pair (rows : List Json) (meta : Json)
  | triple (rows : List Json) (meta : Json) (raw_pages : List Json)

/-- The `while True` loop of `fetch_extended_all_pages`, with fuel.
Stop conditions in source order after each page: accumulated rows
`>= max_rows` (truncate), current page's rows empty, and
`isinstance(total_pages, int) and cur_page >= total_pages`
(a non-numeric `cur_page` compared against an int raises
`TypeError`). -/
def fetchLoop (server : Nat → Json) (typ : String) (max_rows : Nat) :
    Nat → Nat → List Json → Json → List Json →
    Option (Except PyErr FetchResult)
  | 0, _, _, _, _ => none
  | fuel + 1, page, all_rows, _last_meta, raw_pages =>
    let payload := server page
    let raw2 := raw_pages ++ [payload]
    match processPage payload typ page with
    | .error e => some (.error e)
    | .ok pd =>
      let rows2 := all_rows ++ pd.rows
      if max_rows ≤ rows2.length then
        some (.ok (.pair (rows2.take max_rows) pd.meta))
      else if pd.rows.isEmpty then
        some (.ok (.pair rows2 pd.meta))
      else
        match pd.total_pages with
        | some tp =>
          match tp.asInt? with
          | some tpn =>
            match pd.cur_page.asInt? with
            | some cpn =>
              if tpn ≤ cpn then some (.ok (.triple rows2 pd.meta raw2))
              else fetchLoop server typ max_rows fuel (page + 1) rows2 pd.meta raw2
            | none => some (.error .typeError)
          | none => fetchLoop server typ max_rows fuel (page + 1) rows2 pd.meta raw2
        | none => fetchLoop server typ max_rows fuel (page + 1) rows2 pd.meta raw2

/-- Entry point of `fetch_extended_all_pages`: page 1, empty
accumulator, `last_meta = {}`, no raw pages yet. -/
def fetch_extended_all_pages (server : Nat → Json) (typ : String)
    (max_rows : Nat) (fuel : Nat) : Option (Except PyErr FetchResult) :=
  fetchLoop server typ max_rows fuel 1 [] (.obj []) []

/-! ## `swetrack_extended.py`: the per-(device, type) loop in `main`

`main` runs, for each type,
`rows, meta, raw_pages = fetch_extended_all_pages(...)` inside
`try: ... except Exception as e: dev_out["extended"][typ] =
{"error": str(e), "rows": []}; continue`.  Unpacking a returned
2-tuple into three names raises `ValueError`, which the same handler
catches. -/

/-- `str(e)` for the exceptions that can reach `main`'s handler — the
exception's rendered message, abstracted to its class name. -/
def pyErrStr : PyErr → String
  | .attributeError => "AttributeError"
  | .typeError => "TypeError"
  | .valueError => "ValueError"
  | .runtimeError _ => "RuntimeError"
  | .apiError _ => "SweTrackApiError"
  | .httpError _ _ => "HTTPError"
  | .unexpectedResp _ => "SweTrackApiError"

/-- The entry `main` stores under `dev_out["extended"][typ]` as a
function of the (terminating) fetch outcome: a raised exception and a
failed 3-way unpack of a 2-tuple both become
`{"error": str(e), "rows": []}`; a 3-tuple becomes
`{"rows": rows, "meta": meta}`. -/
def cliProcessType : Except PyErr FetchResult → Json
  | .error e => .obj [("error", .str (pyErrStr e)), ("rows", .arr [])]
  | .ok (.pair _ _) =>
      .obj [("error", .str (pyErrStr .valueError)), ("rows", .arr [])]
  | .ok (.triple rows meta _) => .obj [("rows", .arr rows), ("meta", meta)]

/-- Python dict assignment `d[k] = v` on a string-keyed dict modelled
as an association list: replace the first entry with that key, else
append. -/
def strDictSet : List (String × Json) → String → Json → List (String × Json)
  | [], k, v => [(k, v)]
  | (k', v') :: rest, k, v =>
    if k' = k then (k', v) :: rest else (k', v') :: strDictSet rest k v

/-- Dict lookup on the association list. -/
def strLookup : List (String × Json) → String → Option Json
  | [], _ => none
  | (k', v') :: rest, k => if k' = k then some v' else strLookup rest k

/-- The `for typ in types:` loop of `main` building
`dev_out["extended"]`, with each type's fetch outcome given by an
oracle. -/
def cliDeviceExtended (fetchOf : String → Except PyErr FetchResult)
    (types : List String) : List (String × Json) :=
  types.foldl (fun m t => strDictSet m t (cliProcessType (fetchOf t))) []

/-- One iteration of the `for d in devices:` loop of `main`: the
`d.get(...)` header reads (`id`, `name`, `(d.get("model") or
{}).get("model", "-")`, `status`) followed by the per-type loop.  The
fetch outcomes are given by an oracle keyed by the device id and type;
exceptions can arise only from the header reads, never from the
per-type loop, whose failures are all caught. -/
def cliProcessDevice (fetchOf : Json → String → Except PyErr FetchResult)
    (types : List String) (d : Json) : Except PyErr Json := do
  let dev_id := (← pyGet d "id").getD .null
  let name := (← pyGet d "name").getD (.str "-")
  let model0 := (← pyGet d "model").getD .null
  let model1 := if model0.truthy then model0 else .obj []
  let model := (← pyGet model1 "model").getD (.str "-")
  let status := (← pyGet d "status").getD (.str "-")
  return .obj [("id", dev_id), ("name", name), ("model", model),
    ("status", status),
    ("extended", .obj (cliDeviceExtended (fetchOf dev_id) types))]

/-! ## `custom_components/swetrack/api.py`: `SweTrackApiClient._request` -/

/-- `data.get("success") is False`: the decoded value is a dict whose
`success` field is exactly the boolean `False`. -/
def successIsFalse : Json → Bool
  | .obj fs =>
    match lookupField fs "success" with
    | some (.bool false) => true
    | _ => false
  | _ => false

/-- The detail in `SweTrackApiError(f"API error: {data.get('error') or
data}")`: the `error` field when present *and truthy*, else the whole
object. -/
def request_error_detail (data : Json) : Json :=
  match data with
  | .obj fs =>
    match lookupField fs "error" with
    | some e => if e.truthy then e else data
    | none => data
  | _ => data

/-- Modelled from the spec's words for comparison (claim C2): the
error detail is "an `error` field if present (else the whole
object)" — presence alone, no truthiness test. -/
def claimed_error_detail (data : Json) : Json :=
  match data with
  | .obj fs => (lookupField fs "error").getD data
  | _ => data

/-- `SweTrackApiClient._request` after the response body has been
decoded: reject `status >= 400`, then a dict with `success is False`,
then a non-dict value; otherwise return the dict unchanged. -/
def SweTrackApiClient_request (status : Nat) (data : Json) :
    Except PyErr Json :=
  if 400 ≤ status then .error (.httpError status data)
  else if successIsFalse data then .error (.apiError (request_error_detail data))
  else if !data.isObj then .error (.unexpectedResp data)
  else .ok data

/-! ## `custom_components/swetrack/coordinator.py`

`SweTrackCoordinator._async_update_data` and
`_extract_extended_rows`.  The API client is abstracted as an oracle
giving the outcome (`SweTrackApiError` or decoded payload) of
`async_get_devices()` and of each
`async_get_extended(device_id, typ, pagesize=1)` call. -/

/-- The coordinator's coercion of the extracted value:
`return rows if isinstance(rows, list) else []` — non-list values are
discarded, not wrapped. -/
def coordCoerceRows : Json → List Json
  | .arr xs => xs
  | _ => []

/-- `_extract_extended_rows(payload, typ)`:
`data = (payload.get("data") or {})`; non-dict `data` yields `[]`;
otherwise the same per-type dispatch as the CLI, with non-list
results discarded. -/
def extract_extended_rows (payload : Json) (typ : String) :
    Except PyErr (List Json) := do
  let data0 := (← pyGet payload "data").getD .null
  let data := if data0.truthy then data0 else .obj []
  if data.isObj then
    return coordCoerceRows (extractRaw data typ)
  else
    return []

/-- Lines 40–42 of `_async_update_data`:
`devices = (devices_payload.get("data") or {}).get("devices") or []`
then `if not isinstance(devices, list): devices = []`.  A truthy
non-dict `data` value makes the `.get("devices")` call raise
`AttributeError`. -/
def extract_devices (devices_payload : Json) : Except PyErr (List Json) := do
  let d0 := (← pyGet devices_payload "data").getD .null
  let d1 := if d0.truthy then d0 else .obj []
  let v0 := (← pyGet d1 "devices").getD .null
  let v1 := if v0.truthy then v0 else .arr []
  return (match v1 with | .arr xs => xs | _ => [])

/-- Python dict assignment on the JSON-keyed
`extended_by_device[device_id] = ext`. -/
def dictSet : List (Json × Json) → Json → Json → List (Json × Json)
  | [], k, v => [(k, v)]
  | (k', v') :: rest, k, v =>
    if Json.beq k' k then (k', v) :: rest else (k', v') :: dictSet rest k v

/-- Outcomes of the coordinator's API calls: `async_get_devices()` and
`async_get_extended(device_id, typ, pagesize=1)`. -/
structure ApiOracle where
  devices : Except PyErr Json
  extended : Json → String → Except PyErr Json

/-- The dict `_async_update_data` returns on success. -/
structure Snapshot where
  devices_payload : Json
  devices : List Json
  extended : List (Json × Json)

/-- One iteration of the `for d in devices:` loop: read `d.get("id")`
(skip falsy ids), fetch and extract the latest position and voltage
rows, store `position_latest`/`voltage_latest` when the rows are
non-empty, and assign the bundle into `extended_by_device`. -/
def processDevice (api : ApiOracle) (m : List (Json × Json)) (d : Json) :
    Except PyErr (List (Json × Json)) := do
  let device_id := (← pyGet d "id").getD .null
  if !device_id.truthy then return m
  let pos_payload ← api.extended device_id "position"
  let pos_rows ← extract_extended_rows pos_payload "position"
  let ext1 : List (String × Json) :=
    match pos_rows with
    | [] => []
    | r :: _ => [("position_latest", r)]
  let volt_payload ← api.extended device_id "voltage"
  let volt_rows ← extract_extended_rows volt_payload "voltage"
  let ext2 : List (String × Json) :=
    match volt_rows with
    | [] => []
    | r :: _ => [("voltage_latest", r)]
  return dictSet m device_id (.obj (ext1 ++ ext2))

/-- The body of the `try:` block of `_async_update_data`. -/
def updateBody (api : ApiOracle) (fetch_extended : Bool) :
    Except PyErr Snapshot := do
  let devices_payload ← api.devices
  let devices ← extract_devices devices_payload
  let ext ← if fetch_extended then devices.foldlM (processDevice api) [] else pure []
  return ⟨devices_payload, devices, ext⟩

/-- Outcome of one refresh cycle: either a single raised
`UpdateFailed` (both `except` arms re-raise as `UpdateFailed`), or
the fully built snapshot. -/
inductive UpdateResult where
  | failed (e : PyErr)
  | ok (snap : Snapshot)

/-- `SweTrackCoordinator._async_update_data`: the whole `try` body with
every exception converted into one `UpdateFailed`. -/
def async_update_data (api : ApiOracle) (fetch_extended : Bool) :
    UpdateResult :=
  match updateBody api fetch_extended with
  | .ok snap => .ok snap
  | .error e => .failed e

/-! ## Concrete payloads used in counterexamples and exhibits -/

/-- A page payload with a truthy non-dict `pagination` value and enough
rows to reach `max_rows = 5` on page 1. -/
def plPagNonDict : Json := .obj [("success", .bool true),
  ("data", .obj [("positions", .arr [.null, .null, .null, .null, .null])]),
  ("pagination", .num 7)]

/-- A successful page payload whose `data` field is present but `null`. -/
def plDataNull : Json := .obj [("success", .bool true), ("data", .null)]

/-- A one-row page reporting `page = 1`, `total_pages = 1`. -/
def plOnePage : Json := .obj [("success", .bool true),
  ("data", .obj [("positions", .arr [.null])]),
  ("pagination", .obj [("page", .num 1), ("total_pages", .num 1)])]

/-- A one-row page whose descriptor reports `page = 5` against
`total_pages = 3` (server-reported page far ahead of the request
counter). -/
def plReportsPage5 : Json := .obj [("success", .bool true),
  ("data", .obj [("positions", .arr [.null])]),
  ("pagination", .obj [("page", .num 5), ("total_pages", .num 3)])]

/-- Like `plReportsPage5` but with no `page` field, so the local
counter is used. -/
def plNoPageField3 : Json := .obj [("success", .bool true),
  ("data", .obj [("positions", .arr [.null])]),
  ("pagination", .obj [("total_pages", .num 3)])]

/-- A one-row page that always reports `page = 1` against
`total_pages = 2`. -/
def plReportsPage1 : Json := .obj [("success", .bool true),
  ("data", .obj [("positions", .arr [.null])]),
  ("pagination", .obj [("page", .num 1), ("total_pages", .num 2)])]

/-- Like `plReportsPage1` but with no `page` field. -/
def plNoPageField2 : Json := .obj [("success", .bool true),
  ("data", .obj [("positions", .arr [.null])]),
  ("pagination", .obj [("total_pages", .num 2)])]

/-- A two-row page with no pagination descriptor. -/
def plTwoRows : Json := .obj [("success", .bool true),
  ("data", .obj [("positions", .arr [.null, .null])])]

/-- A device-list payload whose `data` value is a truthy non-dict. -/
def plDataStr : Json := .obj [("success", .bool true), ("data", .str "oops")]

/-- An extended page whose `positions` value is a lone object, not an
array. -/
def loneObj : Json := .obj [("latitude", .num 59)]

/-- An API-error payload whose `error` field is present but falsy. -/
def plFalsyError : Json := .obj [("success", .bool false), ("error", .str "")]

/-- An oracle whose device list has a truthy non-dict `data` value. -/
def apiDataStr : ApiOracle := ⟨.ok plDataStr, fun _ _ => .ok .null⟩

/-- A healthy oracle: one device `d1`, one position row and one voltage
row. -/
def apiHealthy : ApiOracle :=
  ⟨.ok (.obj [("success", .bool true),
      ("data", .obj [("devices",
        .arr [.obj [("id", .str "d1"), ("name", .str "Car")]])])]),
   fun _ typ => .ok (.obj [("success", .bool true),
      ("data", .obj [(if typ = "position" then "positions" else "voltage",
        .arr [.obj [("v", .num 1)]])])])⟩

/-- An oracle whose device-list request fails with an HTTP error. -/
def apiDevFail : ApiOracle := ⟨.error (.httpError 500 .null), fun _ _ => .ok .null⟩

/-- Like `apiHealthy` but the position fetch raises an API error. -/
def apiPosFail : ApiOracle :=
  ⟨.ok (.obj [("success", .bool true),
      ("data", .obj [("devices",
        .arr [.obj [("id", .str "d1"), ("name", .str "Car")]])])]),
   fun _ typ => if typ = "position"
     then .error (.apiError (.str "boom")) else .ok .null⟩

/-- The snapshot `apiHealthy` produces. -/
def snapHealthy : Snapshot :=
  ⟨.obj [("success", .bool true),
      ("data", .obj [("devices",
        .arr [.obj [("id", .str "d1"), ("name", .str "Car")]])])],
   [.obj [("id", .str "d1"), ("name", .str "Car")]],
   [(.str "d1", .obj [("position_latest", .obj [("v", .num 1)]),
                      ("voltage_latest", .obj [("v", .num 1)])])]⟩

/-! ## Generic lemmas about the embedded monadic code -/

@[simp] theorem except_bind_ok {α β ε : Type} (a : α) (f : α → Except ε β) :
    (Except.ok a >>= f) = f a := rfl

@[simp] theorem except_bind_error {α β ε : Type} (e : ε) (f : α → Except ε β) :
    ((Except.error e : Except ε α) >>= f) = .error e := rfl

@[simp] theorem except_pure_eq_ok {α ε : Type} (a : α) :
    (pure a : Except ε α) = .ok a := rfl

@[simp] theorem pyGet_obj (fs : List (String × Json)) (k : String) :
    pyGet (.obj fs) k = .ok (lookupField fs k) := rfl

/-! ## Claim theorems -/

/-- C5: the claim states that every terminating paginator fetch returns
one and the same shape, a pair `(rows, lastMeta)`.  The code violates
this: the `total_pages` stop returns the 3-tuple
`(all_rows, last_meta, raw_pages)` (first conjunct), while the
empty-page stop returns the 2-tuple `(all_rows, last_meta)` (second
conjunct) — matching the docstring `Returns: (rows, meta)` — and the
`max_rows` stop also returns a 2-tuple (third conjunct, truncating two
accumulated rows to one).  So the result shape differs across stop
conditions. -/
theorem C5_result_shape_not_uniform :
    fetch_extended_all_pages (fun _ => plOnePage) "position" 100 5
      = some (.ok (.triple [.null] (.obj []) [plOnePage]))
    ∧ fetch_extended_all_pages (fun _ => .obj [("success", .bool true)]) "position" 100 5
      = some (.ok (.pair [] (.obj [])))
    ∧ fetch_extended_all_pages (fun _ => plTwoRows) "position" 1 5
      = some (.ok (.pair [.null] (.obj []))) :=
  ⟨rfl, rfl, rfl⟩

/-- C10: the total-pages stop compares the descriptor's `page` field
when present, falling back to the local request-page counter when
absent (first two conjuncts, about `curPageOf`, which `processPage`
uses to compute the compared value).  The remaining conjuncts show the
behavioural consequence: a server constantly reporting `page = 5`
against `total_pages = 3` stops after page 1 with one row, while the
same data without a `page` field runs to page 3; a server constantly
reporting `page = 1` against `total_pages = 2` never triggers the
total-pages stop and runs until `max_rows = 4` is reached on page 4,
while without the `page` field it stops at page 2 with two rows. -/
theorem C10_server_reported_page_drives_stop :
    (∀ (fs : List (String × Json)) (page : Nat) (v : Json),
        lookupField fs "page" = some v → curPageOf (.obj fs) page = .ok v)
    ∧ (∀ (fs : List (String × Json)) (page : Nat),
        lookupField fs "page" = none →
        curPageOf (.obj fs) page = .ok (.num (page : Int)))
    ∧ fetch_extended_all_pages (fun _ => plReportsPage5) "position" 100 10
      = some (.ok (.triple [.null] (.obj []) [plReportsPage5]))
    ∧ fetch_extended_all_pages (fun _ => plNoPageField3) "position" 100 10
      = some (.ok (.triple [.null, .null, .null] (.obj [])
          [plNoPageField3, plNoPageField3, plNoPageField3]))
    ∧ fetch_extended_all_pages (fun _ => plReportsPage1) "position" 4 10
      = some (.ok (.pair [.null, .null, .null, .null] (.obj [])))
    ∧ fetch_extended_all_pages (fun _ => plNoPageField2) "position" 4 10
      = some (.ok (.triple [.null, .null] (.obj []) [plNoPageField2, plNoPageField2])) := by
  refine ⟨?_, ?_, rfl, rfl, rfl, rfl⟩
  · intro fs page v h
    simp [curPageOf, pyGet, h]
  · intro fs page h
    simp [curPageOf, pyGet, h]

/-- C10 witness: the two `curPageOf` characterizations at concrete
inputs — a descriptor reporting `page = 5` and one with no `page`
field, both queried while requesting page 1. -/
theorem C10_server_reported_page_drives_stop_witness :
    curPageOf (.obj [("page", .num 5), ("total_pages", .num 3)]) 1 = .ok (.num 5)
    ∧ curPageOf (.obj [("total_pages", .num 3)]) 1 = .ok (.num 1) :=
  ⟨C10_server_reported_page_drives_stop.1 _ 1 _ rfl,
   C10_server_reported_page_drives_stop.2.1 _ 1 rfl⟩

/-- When the page whose appended rows reach `max_rows` processes
without an exception, the loop returns the truncated pair at once. -/
theorem fetchLoop_maxRows_stop (s : Nat → Json) (typ : String)
    (max_rows fuel page : Nat) (acc : List Json) (lm : Json)
    (raw : List Json) (pd : PageData)
    (hpd : processPage (s page) typ page = .ok pd)
    (hmax : max_rows ≤ acc.length + pd.rows.length) :
    fetchLoop s typ max_rows (fuel + 1) page acc lm raw
      = some (.ok (.pair ((acc ++ pd.rows).take max_rows) pd.meta)) := by
  simp only [fetchLoop, hpd]
  rw [if_pos (by simpa using hmax)]

/-- When a page processes without an exception, yields no rows, and
the accumulator is still below `max_rows`, the loop returns the
accumulator unchanged. -/
theorem fetchLoop_empty_stop (s : Nat → Json) (typ : String)
    (max_rows fuel page : Nat) (acc : List Json) (lm : Json)
    (raw : List Json) (pd : PageData)
    (hpd : processPage (s page) typ page = .ok pd)
    (hempty : pd.rows = []) (hlt : acc.length < max_rows) :
    fetchLoop s typ max_rows (fuel + 1) page acc lm raw
      = some (.ok (.pair acc pd.meta)) := by
  simp only [fetchLoop, hpd]
  rw [if_neg (by simp [hempty]; omega)]
  simp [hempty]

/-- C3 counterexample: the claim as stated fails.  With `max_rows = 5`
and a page whose five extracted rows reach the bound, but whose
`pagination` field holds the truthy non-dict value `7`, the
`pagination.get("total_pages")` call — evaluated before the `max_rows`
check — raises `AttributeError`: the fetch raises instead of returning
the truncated row sequence. -/
theorem C3_maxRows_truncation_cex :
    extractRowsOfPayload plPagNonDict "position"
      = .ok [.null, .null, .null, .null, .null]
    ∧ fetch_extended_all_pages (fun _ => plPagNonDict) "position" 5 3
      = some (.error .attributeError) :=
  ⟨rfl, rfl⟩

/-- C3 (amended): for every loop state, if the page whose appended
rows make the accumulated count reach or exceed `max_rows` processes
without an exception (in particular its pagination-descriptor lookup
succeeds), the fetch immediately returns a row sequence of length
exactly `max_rows` — the first `max_rows` accumulated rows in order —
and no further page is requested: the result is the same for any two
servers and fuel/raw-page states that agree on the current page
alone. -/
theorem C3_maxRows_truncation (s1 s2 : Nat → Json) (typ : String)
    (max_rows fuel1 fuel2 page : Nat) (acc : List Json) (lm1 lm2 : Json)
    (raw1 raw2 : List Json) (pd : PageData)
    (hagree : s1 page = s2 page)
    (hpd : processPage (s1 page) typ page = .ok pd)
    (hmax : max_rows ≤ acc.length + pd.rows.length) :
    fetchLoop s1 typ max_rows (fuel1 + 1) page acc lm1 raw1
      = some (.ok (.pair ((acc ++ pd.rows).take max_rows) pd.meta))
    ∧ fetchLoop s2 typ max_rows (fuel2 + 1) page acc lm2 raw2
      = some (.ok (.pair ((acc ++ pd.rows).take max_rows) pd.meta))
    ∧ ((acc ++ pd.rows).take max_rows).length = max_rows := by
  refine ⟨fetchLoop_maxRows_stop s1 typ max_rows fuel1 page acc lm1 raw1 pd hpd hmax,
    fetchLoop_maxRows_stop s2 typ max_rows fuel2 page acc lm2 raw2 pd (hagree ▸ hpd) hmax,
    ?_⟩
  simp only [List.length_take, List.length_append]
  omega

/-- C3 witness: a server whose page 1 yields two rows against
`max_rows = 2`; the loop returns exactly those two rows as a pair,
whatever the fuel or the rest of the server. -/
theorem C3_maxRows_truncation_witness :
    fetchLoop (fun _ => plTwoRows) "position" 2 1 1 [] (.obj []) []
      = some (.ok (.pair [.null, .null] (.obj [])))
    ∧ fetchLoop (fun p => if p = 1 then plTwoRows else .null) "position" 2 8 1 [] .null [.null]
      = some (.ok (.pair [.null, .null] (.obj [])))
    ∧ ([.null, .null] : List Json).length = 2 := by
  have h := C3_maxRows_truncation (fun _ => plTwoRows)
    (fun p => if p = 1 then plTwoRows else .null) "position" 2 0 7 1 [] (.obj []) .null
    [] [.null] ⟨[.null, .null], .obj [], none, .num 1⟩ (by simp) rfl (by simp)
  simpa using h

/-- C4 counterexample: the claim as stated fails.  A successful page
whose `data` field is present but `null` yields an empty extracted row
list, yet the fetch does not stop successfully: the pagination line
`payload.get("data", {}).get("pagination")` calls `.get` on `None` and
raises `AttributeError` (with `max_rows = 5`, so the accumulated count
0 is below the bound). -/
theorem C4_empty_page_stop_cex :
    extractRowsOfPayload plDataNull "position" = .ok []
    ∧ fetch_extended_all_pages (fun _ => plDataNull) "position" 5 3
      = some (.error .attributeError) :=
  ⟨rfl, rfl⟩

/-- C4 (amended): for every loop state, if page `k` processes without
an exception (in particular its pagination-descriptor lookup
succeeds), yields an empty extracted row list, and the accumulated
count is still below `max_rows`, the fetch stops successfully and
returns exactly the rows accumulated from the earlier pages, without
requesting page `k + 1`: the result is the same for any two servers
and fuel/raw-page states that agree on page `k` alone. -/
theorem C4_empty_page_stop (s1 s2 : Nat → Json) (typ : String)
    (max_rows fuel1 fuel2 page : Nat) (acc : List Json) (lm1 lm2 : Json)
    (raw1 raw2 : List Json) (pd : PageData)
    (hagree : s1 page = s2 page)
    (hpd : processPage (s1 page) typ page = .ok pd)
    (hempty : pd.rows = []) (hlt : acc.length < max_rows) :
    fetchLoop s1 typ max_rows (fuel1 + 1) page acc lm1 raw1
      = some (.ok (.pair acc pd.meta))
    ∧ fetchLoop s2 typ max_rows (fuel2 + 1) page acc lm2 raw2
      = some (.ok (.pair acc pd.meta)) :=
  ⟨fetchLoop_empty_stop s1 typ max_rows fuel1 page acc lm1 raw1 pd hpd hempty hlt,
   fetchLoop_empty_stop s2 typ max_rows fuel2 page acc lm2 raw2 pd (hagree ▸ hpd) hempty hlt⟩

/-- C4 witness: page 2 returns zero rows after page 1 accumulated one
row; the fetch returns that single row, whatever the fuel or the rest
of the server. -/
theorem C4_empty_page_stop_witness :
    fetchLoop (fun _ => .obj [("success", .bool true)]) "position" 5 1 2 [.null] (.obj []) []
      = some (.ok (.pair [.null] (.obj [])))
    ∧ fetchLoop (fun p => if p = 2 then .obj [("success", .bool true)] else .null)
        "position" 5 8 2 [.null] .null [.null]
      = some (.ok (.pair [.null] (.obj []))) := by
  have h := C4_empty_page_stop (fun _ => .obj [("success", .bool true)])
    (fun p => if p = 2 then .obj [("success", .bool true)] else .null) "position" 5 0 7 2
    [.null] (.obj []) .null [] [.null] ⟨[], .obj [], none, .num 2⟩ (by simp) rfl rfl (by simp)
  simpa using h

/-- C2 counterexample: the claim's error-detail rule ("the `error`
field when present, else the whole object") fails.  For the payload
`{"success": false, "error": ""}` the `error` field is present, so the
claim predicts the detail `""`; but the code computes
`data.get('error') or data`, and since `""` is falsy the raised error
carries the whole object instead. -/
theorem C2_success_false_classification_cex :
    SweTrackApiClient_request 200 plFalsyError = .error (.apiError plFalsyError)
    ∧ claimed_error_detail plFalsyError = .str ""
    ∧ plFalsyError ≠ .str "" :=
  ⟨rfl, rfl, fun h => Json.noConfusion h⟩

/-- C2 (amended): for every decoded value at a 2xx status, `_request`
raises iff the value is not an object or its `success` field is
exactly `False`; in the explicitly-false case the error detail is the
`error` field when present *and truthy*, else the whole object; in
every other case the object is returned unchanged. -/
theorem C2_success_false_classification (status : Nat) (data : Json)
    (h2xxLo : 200 ≤ status) (h2xxHi : status < 300) :
    ((∃ e, SweTrackApiClient_request status data = .error e)
      ↔ (data.isObj = false ∨ successIsFalse data = true))
    ∧ (successIsFalse data = true →
        SweTrackApiClient_request status data
          = .error (.apiError (request_error_detail data)))
    ∧ (∀ fs e, data = .obj fs → lookupField fs "error" = some e →
        e.truthy = true → request_error_detail data = e)
    ∧ (∀ fs, data = .obj fs →
        (∀ e, lookupField fs "error" = some e → e.truthy = false) →
        request_error_detail data = data)
    ∧ (data.isObj = true → successIsFalse data = false →
        SweTrackApiClient_request status data = .ok data) := by
  have hlt : ¬ 400 ≤ status := by omega
  refine ⟨?_, ?_, ?_, ?_, ?_⟩
  · constructor
    · rintro ⟨e, he⟩
      by_contra hc
      push_neg at hc
      obtain ⟨ho, hs⟩ := hc
      simp only [Bool.not_eq_false] at ho
      simp only [Bool.not_eq_true] at hs
      simp [SweTrackApiClient_request, hlt, hs, ho] at he
    · intro h
      rcases h with ho | hs
      · by_cases hs : successIsFalse data
        · exact ⟨.apiError (request_error_detail data),
            by simp [SweTrackApiClient_request, hlt, hs]⟩
        · exact ⟨.unexpectedResp data,
            by simp [SweTrackApiClient_request, hlt, hs, ho]⟩
      · exact ⟨.apiError (request_error_detail data),
          by simp [SweTrackApiClient_request, hlt, hs]⟩
  · intro hs
    simp [SweTrackApiClient_request, hlt, hs]
  · intro fs e hd he ht
    subst hd
    simp [request_error_detail, he, ht]
  · intro fs hd hall
    subst hd
    simp only [request_error_detail]
    cases he : lookupField fs "error" with
    | none => rfl
    | some e => simp [hall e he]
  · intro ho hs
    simp [SweTrackApiClient_request, hlt, hs, ho]

/-- C2 witness: at status 200 with `{"success": false, "error":
"rate limited"}` the request raises an API error carrying the `error`
field; with `{"success": true}` the object is returned unchanged. -/
theorem C2_success_false_classification_witness :
    SweTrackApiClient_request 200 (.obj [("success", .bool false), ("error", .str "rate limited")])
      = .error (.apiError (request_error_detail
          (.obj [("success", .bool false), ("error", .str "rate limited")])))
    ∧ SweTrackApiClient_request 200 (.obj [("success", .bool true)])
      = .ok (.obj [("success", .bool true)]) :=
  ⟨(C2_success_false_classification 200
      (.obj [("success", .bool false), ("error", .str "rate limited")])
      (by omega) (by omega)).2.1 rfl,
   (C2_success_false_classification 200 (.obj [("success", .bool true)])
      (by omega) (by omega)).2.2.2.2 rfl rfl⟩

/-- C6 counterexample: the claim fails for the integration's
extraction step.  For a page whose `positions` value is the lone
object `{"latitude": 59}`, the coordinator's
`_extract_extended_rows` returns `[]` — the object is discarded, not
kept as a one-element list. -/
theorem C6_nonlist_coercion_cex :
    extractRaw (.obj [("positions", loneObj)]) "position" = loneObj
    ∧ loneObj.isArr = false
    ∧ extract_extended_rows (.obj [("data", .obj [("positions", loneObj)])]) "position"
      = .ok []
    ∧ ([] : List Json) ≠ [loneObj] :=
  ⟨rfl, rfl, rfl, by simp⟩

/-- C6 (amended): when the extracted per-type value exists but is not
a list (and not `None`), the CLI paginator's extraction coerces it to
the one-element list containing it, keeping the lone object; the
coordinator's `_extract_extended_rows`, by contrast, returns the
empty list for the same value, discarding it. -/
theorem C6_nonlist_coercion (data : Json) (typ : String)
    (h1 : (extractRaw data typ).isArr = false)
    (h2 : extractRaw data typ ≠ .null) :
    cliCoerceRows (extractRaw data typ) = [extractRaw data typ]
    ∧ (∀ payload fs, payload = .obj fs → lookupField fs "data" = some data →
        data.truthy = true → extractRowsOfPayload payload typ = .ok [extractRaw data typ])
    ∧ (∀ payload fs, payload = .obj fs → lookupField fs "data" = some data →
        data.truthy = true → extract_extended_rows payload typ = .ok []) := by
  have hcli : cliCoerceRows (extractRaw data typ) = [extractRaw data typ] := by
    cases hv : extractRaw data typ with
    | null => exact absurd hv h2
    | arr xs => rw [hv] at h1; exact absurd h1 (by simp [Json.isArr])
    | _ => rfl
  have hcoord : coordCoerceRows (extractRaw data typ) = [] := by
    cases hv : extractRaw data typ with
    | arr xs => rw [hv] at h1; exact absurd h1 (by simp [Json.isArr])
    | _ => rfl
  refine ⟨hcli, ?_, ?_⟩
  · intro payload fs hp hd ht
    subst hp
    simp [extractRowsOfPayload, pyGet, hd, ht, hcli]
  · intro payload fs hp hd ht
    subst hp
    by_cases ho : data.isObj
    · simp [extract_extended_rows, pyGet, hd, ht, ho, hcoord]
    · simp [extract_extended_rows, pyGet, hd, ht, ho]

/-- C6 witness: at the lone object `{"latitude": 59}` under
`data.positions`, the CLI keeps `[{"latitude": 59}]` while the
coordinator returns `[]`. -/
theorem C6_nonlist_coercion_witness :
    cliCoerceRows (extractRaw (.obj [("positions", loneObj)]) "position")
      = [extractRaw (.obj [("positions", loneObj)]) "position"]
    ∧ extractRowsOfPayload (.obj [("data", .obj [("positions", loneObj)])]) "position"
      = .ok [extractRaw (.obj [("positions", loneObj)]) "position"]
    ∧ extract_extended_rows (.obj [("data", .obj [("positions", loneObj)])]) "position"
      = .ok [] := by
  have h := C6_nonlist_coercion (.obj [("positions", loneObj)]) "position" rfl
    (fun h => Json.noConfusion h)
  exact ⟨h.1, h.2.1 _ _ rfl rfl rfl, h.2.2 _ _ rfl rfl rfl⟩

/-- C8 counterexample: the claim fails for a `data` value of the wrong
shape that is truthy and not a mapping.  For the device-list payload
`{"success": true, "data": "oops"}` the chained lookup
`(payload.get("data") or {}).get("devices")` calls `.get` on a string
and raises `AttributeError`: the build fails instead of succeeding
with zero devices. -/
theorem C8_device_list_default_cex :
    extract_devices plDataStr = .error .attributeError
    ∧ async_update_data apiDataStr true = .failed .attributeError :=
  ⟨rfl, rfl⟩

/-- C8 (amended): the Snapshot Builder extracts the device array from
the payload's `data` object, defaulting to the empty list when `data`
is absent or falsy, or when `data` is a mapping whose `devices` field
is absent or not a list (a present list is returned as is, an empty
one as the empty list); a build whose extraction yields the empty
list still succeeds with zero devices.  But when `data` is present,
truthy and not a mapping, the lookup raises and the refresh cycle
fails instead. -/
theorem C8_device_list_default (payload : Json) (fs : List (String × Json))
    (hobj : payload = .obj fs) :
    (lookupField fs "data" = none → extract_devices payload = .ok [])
    ∧ (∀ dv, lookupField fs "data" = some dv → dv.truthy = false →
        extract_devices payload = .ok [])
    ∧ (∀ gs, lookupField fs "data" = some (.obj gs) →
        (lookupField gs "devices" = none → extract_devices payload = .ok [])
        ∧ (∀ w, lookupField gs "devices" = some w → w.isArr = false →
            extract_devices payload = .ok [])
        ∧ (∀ xs, lookupField gs "devices" = some (.arr xs) →
            extract_devices payload = .ok xs))
    ∧ (∀ dv, lookupField fs "data" = some dv → dv.truthy = true →
        dv.isObj = false → extract_devices payload = .error .attributeError)
    ∧ (∀ (api : ApiOracle) (fe : Bool), api.devices = .ok payload →
        extract_devices payload = .ok [] →
        async_update_data api fe = .ok ⟨payload, [], []⟩) := by
  subst hobj
  refine ⟨?_, ?_, ?_, ?_, ?_⟩
  · intro hd
    simp [extract_devices, pyGet, hd, Json.truthy, lookupField]
  · intro dv hd ht
    cases dv with
    | null => simp [extract_devices, pyGet, hd, Json.truthy, lookupField]
    | bool b =>
      cases b with
      | false => simp [extract_devices, pyGet, hd, Json.truthy, lookupField]
      | true => simp [Json.truthy] at ht
    | num n =>
      simp only [Json.truthy] at ht
      simp [extract_devices, pyGet, hd, ht, Json.truthy, lookupField]
    | str s =>
      simp only [Json.truthy] at ht
      simp [extract_devices, pyGet, hd, ht, Json.truthy, lookupField]
    | arr xs =>
      simp only [Json.truthy] at ht
      simp [extract_devices, pyGet, hd, ht, Json.truthy, lookupField]
    | obj gs =>
      simp only [Json.truthy] at ht
      simp [extract_devices, pyGet, hd, ht, Json.truthy, lookupField]
  · intro gs hd
    refine ⟨?_, ?_, ?_⟩
    · intro hg
      by_cases ht : (Json.obj gs).truthy
      · simp only [Json.truthy] at ht
        simp [extract_devices, pyGet, hd, ht, hg, Json.truthy, lookupField]
      · simp only [Json.truthy] at ht
        simp [extract_devices, pyGet, hd, ht, Json.truthy, lookupField]
    · intro w hg hw
      have ht : (!gs.isEmpty) = true := by
        cases gs with
        | nil => simp [lookupField] at hg
        | cons p rest => simp
      cases w with
      | arr xs => simp [Json.isArr] at hw
      | null => simp [extract_devices, pyGet, hd, ht, hg, Json.truthy]
      | bool b =>
        cases b with
        | false => simp [extract_devices, pyGet, hd, ht, hg, Json.truthy]
        | true => simp [extract_devices, pyGet, hd, ht, hg, Json.truthy]
      | num n =>
        by_cases hn : (n != 0) = true
        · simp [extract_devices, pyGet, hd, ht, hg, hn, Json.truthy]
        · simp [extract_devices, pyGet, hd, ht, hg, hn, Json.truthy]
      | str s =>
        by_cases hn : (s != "") = true
        · simp [extract_devices, pyGet, hd, ht, hg, hn, Json.truthy]
        · simp [extract_devices, pyGet, hd, ht, hg, hn, Json.truthy]
      | obj hs =>
        by_cases hn : (!hs.isEmpty) = true
        · simp [extract_devices, pyGet, hd, ht, hg, hn, Json.truthy]
        · simp [extract_devices, pyGet, hd, ht, hg, hn, Json.truthy]
    · intro xs hg
      have ht : (!gs.isEmpty) = true := by
        cases gs with
        | nil => simp [lookupField] at hg
        | cons p rest => simp
      cases xs with
      | nil => simp [extract_devices, pyGet, hd, ht, hg, Json.truthy]
      | cons a as => simp [extract_devices, pyGet, hd, ht, hg, Json.truthy]
  · intro dv hd ht ho
    cases dv with
    | obj _ => simp [Json.isObj] at ho
    | null => simp [Json.truthy] at ht
    | bool b => cases b with
      | false => simp [Json.truthy] at ht
      | true => simp [extract_devices, pyGet, hd, Json.truthy]
    | num n =>
      simp only [Json.truthy] at ht
      simp [extract_devices, pyGet, hd, ht, Json.truthy]
    | str s =>
      simp only [Json.truthy] at ht
      simp [extract_devices, pyGet, hd, ht, Json.truthy]
    | arr xs =>
      simp only [Json.truthy] at ht
      simp [extract_devices, pyGet, hd, ht, Json.truthy]
  · intro api fe hdev hext
    cases fe with
    | false => simp [async_update_data, updateBody, hdev, hext]
    | true => simp [async_update_data, updateBody, hdev, hext, List.foldlM]

/-- C8 witness: a device-list payload with no `data` key extracts zero
devices, and the whole refresh still succeeds with an empty device
list and an empty extended mapping. -/
theorem C8_device_list_default_witness :
    extract_devices (.obj [("success", .bool true)]) = .ok []
    ∧ async_update_data ⟨.ok (.obj [("success", .bool true)]), fun _ _ => .ok .null⟩ true
      = .ok ⟨.obj [("success", .bool true)], [], []⟩ := by
  have h := C8_device_list_default (.obj [("success", .bool true)])
    [("success", .bool true)] rfl
  exact ⟨h.1 rfl, h.2.2.2.2 _ true rfl (h.1 rfl)⟩

/-- Looking up the key just assigned finds the assigned value. -/
theorem strLookup_strDictSet_self (m : List (String × Json)) (k : String)
    (v : Json) : strLookup (strDictSet m k v) k = some v := by
  induction m with
  | nil => simp [strDictSet, strLookup]
  | cons p rest ih =>
    obtain ⟨k', v'⟩ := p
    by_cases h : k' = k
    · simp [strDictSet, strLookup, h]
    · simp [strDictSet, strLookup, h, ih]

/-- Assigning one key leaves every other key's lookup unchanged. -/
theorem strLookup_strDictSet_other (m : List (String × Json)) (k t : String)
    (v : Json) (h : t ≠ k) :
    strLookup (strDictSet m k v) t = strLookup m t := by
  induction m with
  | nil => simp [strDictSet, strLookup, Ne.symm h]
  | cons p rest ih =>
    obtain ⟨k', v'⟩ := p
    by_cases hk : k' = k
    · subst hk
      simp [strDictSet, strLookup, Ne.symm h]
    · by_cases htk : k' = t
      · simp [strDictSet, strLookup, hk, htk, h]
      · simp [strDictSet, strLookup, hk, htk, ih]

/-- Keys not in the remaining type list are untouched by the rest of
the per-type loop. -/
theorem cliDeviceExtended_preserve (f : String → Except PyErr FetchResult)
    (types : List String) (m : List (String × Json)) (t : String)
    (ht : t ∉ types) :
    strLookup (types.foldl (fun m ty => strDictSet m ty (cliProcessType (f ty))) m) t
      = strLookup m t := by
  induction types generalizing m with
  | nil => rfl
  | cons a rest ih =>
    have hne : t ≠ a := fun h => ht (h ▸ List.mem_cons_self a rest)
    rw [List.foldl_cons, ih _ (fun h => ht (List.mem_cons_of_mem a h)),
      strLookup_strDictSet_other _ _ _ _ hne]

/-- Every type in the list ends up with the entry computed from its own
fetch outcome. -/
theorem cliDeviceExtended_lookup (f : String → Except PyErr FetchResult)
    (types : List String) (m : List (String × Json)) (t : String)
    (ht : t ∈ types) :
    strLookup (types.foldl (fun m ty => strDictSet m ty (cliProcessType (f ty))) m) t
      = some (cliProcessType (f t)) := by
  induction types generalizing m with
  | nil => cases ht
  | cons a rest ih =>
    by_cases hmem : t ∈ rest
    · rw [List.foldl_cons]
      exact ih _ hmem
    · have hta : t = a := by
        rcases List.mem_cons.mp ht with h | h
        · exact h
        · exact absurd h hmem
      subst hta
      rw [List.foldl_cons, cliDeviceExtended_preserve f rest _ t hmem,
        strLookup_strDictSet_self]

/-- C9: in the CLI, each (device, type) fetch outcome is handled in
isolation.  For every type in the list, the `extended` dict holds the
entry computed from that type's own fetch outcome; a raised exception
is recorded as `{"error": str(e), "rows": []}`; a fetch that returns
the 2-tuple makes the 3-way unpack raise `ValueError`, recorded the
same way; and whether a device's processing succeeds never depends on
the fetch outcomes at all — a per-type failure never aborts the
remaining types or devices. -/
theorem C9_cli_per_item_error_capture
    (f : String → Except PyErr FetchResult) (types : List String)
    (t : String) (ht : t ∈ types) :
    strLookup (cliDeviceExtended f types) t = some (cliProcessType (f t))
    ∧ (∀ e, f t = .error e → cliProcessType (f t)
        = .obj [("error", .str (pyErrStr e)), ("rows", .arr [])])
    ∧ (∀ rows meta, f t = .ok (.pair rows meta) → cliProcessType (f t)
        = .obj [("error", .str (pyErrStr .valueError)), ("rows", .arr [])])
    ∧ (∀ (g g' : Json → String → Except PyErr FetchResult) (d r : Json),
        cliProcessDevice g types d = .ok r →
        ∃ r', cliProcessDevice g' types d = .ok r') := by
  refine ⟨cliDeviceExtended_lookup f types [] t ht, ?_, ?_, ?_⟩
  · intro e he
    rw [he]
    rfl
  · intro rows meta he
    rw [he]
    rfl
  · intro g g' d r hr
    cases d with
    | obj fs =>
      simp only [cliProcessDevice, pyGet_obj, except_bind_ok] at hr ⊢
      cases hm : pyGet (if ((lookupField fs "model").getD .null).truthy = true
          then (lookupField fs "model").getD .null else .obj []) "model" with
      | error e => rw [hm] at hr; simp at hr
      | ok mv => exact ⟨_, rfl⟩
    | null => simp [cliProcessDevice, pyGet] at hr
    | bool b => simp [cliProcessDevice, pyGet] at hr
    | num n => simp [cliProcessDevice, pyGet] at hr
    | str s => simp [cliProcessDevice, pyGet] at hr
    | arr xs => simp [cliProcessDevice, pyGet] at hr

/-- C9 witness: with the `position` fetch raising a `RuntimeError` and
the `voltage` fetch returning a 2-tuple, both types get error entries
with empty rows, and a device's processing succeeds under this oracle
just as under an all-successful one. -/
theorem C9_cli_per_item_error_capture_witness :
    strLookup (cliDeviceExtended
        (fun t => if t = "position"
          then .error (.runtimeError (.str "rate limited"))
          else .ok (.pair [] (.obj []))) ["position", "voltage"]) "position"
      = some (.obj [("error", .str "RuntimeError"), ("rows", .arr [])]) := by
  have h := C9_cli_per_item_error_capture
    (fun t => if t = "position"
      then .error (.runtimeError (.str "rate limited"))
      else .ok (.pair [] (.obj []))) ["position", "voltage"] "position"
    (by simp)
  rw [h.1, h.2.1 (.runtimeError (.str "rate limited")) (by simp)]
  rfl

/-- A key of the dict after an assignment is an old key or the
assigned one. -/
theorem dictSet_keys (m : List (Json × Json)) (k v x : Json)
    (hx : x ∈ (dictSet m k v).map Prod.fst) :
    x ∈ m.map Prod.fst ∨ x = k := by
  induction m with
  | nil =>
    simp [dictSet] at hx
    exact .inr hx
  | cons p rest ih =>
    obtain ⟨k', v'⟩ := p
    by_cases hb : Json.beq k' k = true
    · rw [show dictSet ((k', v') :: rest) k v = (k', v) :: rest
          from by simp [dictSet, hb]] at hx
      rw [List.map_cons, List.mem_cons] at hx
      rcases hx with h | h
      · exact .inl (by rw [List.map_cons, List.mem_cons]; exact .inl h)
      · exact .inl (by rw [List.map_cons, List.mem_cons]; exact .inr h)
    · rw [show dictSet ((k', v') :: rest) k v = (k', v') :: dictSet rest k v
          from by simp [dictSet, hb]] at hx
      rw [List.map_cons, List.mem_cons] at hx
      rcases hx with h | h
      · exact .inl (by rw [List.map_cons, List.mem_cons]; exact .inl h)
      · rcases ih h with h2 | h2
        · exact .inl (by rw [List.map_cons, List.mem_cons]; exact .inr h2)
        · exact .inr h2

/-- If a device has a well-defined truthy id and its position or
voltage fetch fails, its loop iteration raises, whatever the
accumulated dict. -/
theorem processDevice_error (api : ApiOracle) (d idv : Json)
    (hid : pyGet d "id" = .ok (some idv)) (ht : idv.truthy = true)
    (herr : (∃ e, api.extended idv "position" = .error e)
          ∨ (∃ e, api.extended idv "voltage" = .error e)) :
    ∀ m, ∃ e, processDevice api m d = .error e := by
  intro m
  unfold processDevice
  rw [hid]
  simp only [except_bind_ok, Option.getD_some, ht, Bool.not_true,
    Bool.false_eq_true, if_false, Bool.not_eq_true]
  cases hp : api.extended idv "position" with
  | error e => exact ⟨e, by simp⟩
  | ok p =>
    simp only [except_bind_ok]
    cases hex : extract_extended_rows p "position" with
    | error e2 => exact ⟨e2, by simp⟩
    | ok rows =>
      simp only [except_bind_ok]
      rcases herr with ⟨e, he⟩ | ⟨e, he⟩
      · rw [hp] at he
        cases he
      · rw [he]
        exact ⟨e, by simp⟩

/-- If a device's loop iteration succeeds and the device has a truthy
id, both its fetches succeeded. -/
theorem processDevice_ok_fetches (api : ApiOracle) (m m' : List (Json × Json))
    (d idv : Json) (hr : processDevice api m d = .ok m')
    (hid : pyGet d "id" = .ok (some idv)) (ht : idv.truthy = true) :
    (∃ p, api.extended idv "position" = .ok p)
    ∧ (∃ q, api.extended idv "voltage" = .ok q) := by
  unfold processDevice at hr
  rw [hid] at hr
  simp only [except_bind_ok, Option.getD_some, ht, Bool.not_true,
    Bool.false_eq_true, if_false, Bool.not_eq_true] at hr
  cases hp : api.extended idv "position" with
  | error e => rw [hp] at hr; cases hr
  | ok p =>
    rw [hp] at hr
    simp only [except_bind_ok] at hr
    cases hex : extract_extended_rows p "position" with
    | error e2 => rw [hex] at hr; cases hr
    | ok rows =>
      rw [hex] at hr
      simp only [except_bind_ok] at hr
      cases hv : api.extended idv "voltage" with
      | error e3 => rw [hv] at hr; cases hr
      | ok q => exact ⟨⟨p, rfl⟩, ⟨q, rfl⟩⟩

/-- A key present after a device's successful loop iteration is an
old key or that device's (truthy) id. -/
theorem processDevice_ok_keys (api : ApiOracle) (m m' : List (Json × Json))
    (d x : Json) (hr : processDevice api m d = .ok m')
    (hx : x ∈ m'.map Prod.fst) :
    x ∈ m.map Prod.fst
    ∨ (pyGet d "id" = .ok (some x) ∧ x.truthy = true) := by
  unfold processDevice at hr
  cases hid : pyGet d "id" with
  | error e => rw [hid] at hr; cases hr
  | ok io =>
    rw [hid] at hr
    simp only [except_bind_ok] at hr
    by_cases ht : (io.getD .null).truthy = true
    · simp only [ht, Bool.not_true, Bool.false_eq_true, if_false] at hr
      cases hp : api.extended (io.getD .null) "position" with
      | error e => rw [hp] at hr; cases hr
      | ok p =>
        rw [hp] at hr
        simp only [except_bind_ok] at hr
        cases hex : extract_extended_rows p "position" with
        | error e2 => rw [hex] at hr; cases hr
        | ok rows =>
          rw [hex] at hr
          simp only [except_bind_ok] at hr
          cases hv : api.extended (io.getD .null) "voltage" with
          | error e3 => rw [hv] at hr; cases hr
          | ok q =>
            rw [hv] at hr
            simp only [except_bind_ok] at hr
            cases hex2 : extract_extended_rows q "voltage" with
            | error e4 => rw [hex2] at hr; cases hr
            | ok rows2 =>
              rw [hex2] at hr
              simp only [except_bind_ok, except_pure_eq_ok, Except.ok.injEq] at hr
              subst hr
              rcases dictSet_keys m (io.getD .null) _ x hx with h | h
              · exact .inl h
              · subst h
                cases io with
                | none => simp [Json.truthy] at ht
                | some j => exact .inr ⟨rfl, ht⟩
    · simp only [ht, Bool.not_false, if_true] at hr
      simp only [except_pure_eq_ok, Except.ok.injEq] at hr
      subst hr
      exact .inl hx

/-- If some device in the list has a truthy id and a failing fetch,
the whole device loop raises, whatever the starting dict. -/
theorem foldlM_processDevice_error (api : ApiOracle) (ds : List Json)
    (d : Json) (hd : d ∈ ds)
    (herr : ∀ m, ∃ e, processDevice api m d = .error e) :
    ∀ m0, ∃ e, ds.foldlM (processDevice api) m0 = .error e := by
  induction ds with
  | nil => cases hd
  | cons a rest ih =>
    intro m0
    rcases List.mem_cons.mp hd with h | h
    · subst h
      obtain ⟨e, he⟩ := herr m0
      exact ⟨e, by rw [List.foldlM_cons, he]; rfl⟩
    · cases ha : processDevice api m0 a with
      | error e => exact ⟨e, by rw [List.foldlM_cons, ha]; rfl⟩
      | ok m1 =>
        obtain ⟨e, he⟩ := ih h m1
        exact ⟨e, by rw [List.foldlM_cons, ha]; simpa using he⟩

/-- If the device loop completes, every device in the list had its
iteration succeed from some intermediate dict. -/
theorem foldlM_processDevice_ok (api : ApiOracle) (ds : List Json)
    (m0 m : List (Json × Json))
    (h : ds.foldlM (processDevice api) m0 = .ok m) (d : Json) (hd : d ∈ ds) :
    ∃ m1 m2, processDevice api m1 d = .ok m2 := by
  induction ds generalizing m0 with
  | nil => cases hd
  | cons a rest ih =>
    rw [List.foldlM_cons] at h
    cases ha : processDevice api m0 a with
    | error e => rw [ha] at h; cases h
    | ok m1 =>
      rw [ha] at h
      simp only [except_bind_ok] at h
      rcases List.mem_cons.mp hd with hh | hh
      · subst hh
        exact ⟨m0, m1, ha⟩
      · exact ih m1 h hh

/-- Every key present after the device loop came from the starting
dict or is the truthy id of some device in the list. -/
theorem foldlM_processDevice_keys (api : ApiOracle) (ds : List Json)
    (m0 m : List (Json × Json))
    (h : ds.foldlM (processDevice api) m0 = .ok m) (x : Json)
    (hx : x ∈ m.map Prod.fst) :
    x ∈ m0.map Prod.fst
    ∨ ∃ d ∈ ds, pyGet d "id" = .ok (some x) ∧ x.truthy = true := by
  induction ds generalizing m0 with
  | nil =>
    rw [List.foldlM_nil] at h
    simp only [except_pure_eq_ok, Except.ok.injEq] at h
    subst h
    exact .inl hx
  | cons a rest ih =>
    rw [List.foldlM_cons] at h
    cases ha : processDevice api m0 a with
    | error e => rw [ha] at h; cases h
    | ok m1 =>
      rw [ha] at h
      simp only [except_bind_ok] at h
      rcases ih m1 h with h2 | ⟨d, hdm, hid, htr⟩
      · rcases processDevice_ok_keys api m0 m1 a x ha h2 with h3 | ⟨hid, htr⟩
        · exact .inl h3
        · exact .inr ⟨a, List.mem_cons_self a rest, hid, htr⟩
      · exact .inr ⟨d, List.mem_cons_of_mem a hdm, hid, htr⟩

/-- C7: referential integrity of a successful snapshot — every key of
the `extended` mapping is the (truthy) id of some device present in
the snapshot's device list, for every possible device-list and
extended-endpoint response the API oracle can give. -/
theorem C7_referential_integrity (api : ApiOracle) (fe : Bool)
    (snap : Snapshot) (h : async_update_data api fe = .ok snap)
    (k : Json) (hk : k ∈ snap.extended.map Prod.fst) :
    ∃ d ∈ snap.devices, pyGet d "id" = .ok (some k) ∧ k.truthy = true := by
  unfold async_update_data at h
  cases hu : updateBody api fe with
  | error e => rw [hu] at h; cases h
  | ok snap2 =>
    rw [hu] at h
    cases h
    unfold updateBody at hu
    cases hdev : api.devices with
    | error e => rw [hdev] at hu; cases hu
    | ok payload =>
      rw [hdev] at hu
      simp only [except_bind_ok] at hu
      cases hext : extract_devices payload with
      | error e => rw [hext] at hu; cases hu
      | ok ds =>
        rw [hext] at hu
        simp only [except_bind_ok] at hu
        cases fe with
        | false =>
          simp only [if_false, Bool.false_eq_true, except_pure_eq_ok,
            except_bind_ok, Except.ok.injEq] at hu
          subst hu
          simp at hk
        | true =>
          simp only [if_true] at hu
          cases hfold : ds.foldlM (processDevice api) [] with
          | error e => rw [hfold] at hu; cases hu
          | ok m =>
            rw [hfold] at hu
            simp only [except_bind_ok, except_pure_eq_ok, Except.ok.injEq] at hu
            subst hu
            rcases foldlM_processDevice_keys api ds [] m hfold k hk with h2 | h2
            · simp at h2
            · exact h2

/-- C7 witness: the healthy oracle builds `snapHealthy`, whose only
extended key `"d1"` is the id of the only device in its device
list. -/
theorem C7_referential_integrity_witness :
    ∃ d ∈ snapHealthy.devices,
      pyGet d "id" = .ok (some (.str "d1")) ∧ (Json.str "d1").truthy = true :=
  C7_referential_integrity apiHealthy true snapHealthy rfl (.str "d1")
    (by simp [snapHealthy])

/-- C1: the refresh cycle is all-or-nothing.  (i) A device-list error
becomes the single `UpdateFailed`.  (ii) If any device in the
extracted list has a truthy id whose position or voltage fetch fails,
the cycle fails — no partial snapshot value exists, since the failure
outcome carries no snapshot.  (iii) A returned snapshot was built only
after every fetch succeeded: its payload and device list are the
successful fetch results, and every device with a truthy id has
successful position and voltage fetch outcomes. -/
theorem C1_refresh_cycle_all_or_nothing (api : ApiOracle) :
    (∀ e, api.devices = .error e → async_update_data api true = .failed e)
    ∧ (∀ payload ds d idv,
        api.devices = .ok payload → extract_devices payload = .ok ds →
        d ∈ ds → pyGet d "id" = .ok (some idv) → idv.truthy = true →
        ((∃ e, api.extended idv "position" = .error e)
          ∨ (∃ e, api.extended idv "voltage" = .error e)) →
        ∃ e, async_update_data api true = .failed e)
    ∧ (∀ snap, async_update_data api true = .ok snap →
        api.devices = .ok snap.devices_payload
        ∧ extract_devices snap.devices_payload = .ok snap.devices
        ∧ ∀ d ∈ snap.devices, ∀ idv, pyGet d "id" = .ok (some idv) →
            idv.truthy = true →
            (∃ p, api.extended idv "position" = .ok p)
            ∧ (∃ q, api.extended idv "voltage" = .ok q)) := by
  refine ⟨?_, ?_, ?_⟩
  · intro e he
    simp [async_update_data, updateBody, he]
  · intro payload ds d idv hdev hext hd hid htr herr
    obtain ⟨e, he⟩ := foldlM_processDevice_error api ds d hd
      (processDevice_error api d idv hid htr herr) []
    exact ⟨e, by simp [async_update_data, updateBody, hdev, hext, he]⟩
  · intro snap h
    unfold async_update_data at h
    cases hu : updateBody api true with
    | error e => rw [hu] at h; cases h
    | ok snap2 =>
      rw [hu] at h
      cases h
      unfold updateBody at hu
      cases hdev : api.devices with
      | error e => rw [hdev] at hu; cases hu
      | ok payload =>
        rw [hdev] at hu
        simp only [except_bind_ok] at hu
        cases hext : extract_devices payload with
        | error e => rw [hext] at hu; cases hu
        | ok ds =>
          rw [hext] at hu
          simp only [except_bind_ok, if_true] at hu
          cases hfold : ds.foldlM (processDevice api) [] with
          | error e => rw [hfold] at hu; cases hu
          | ok m =>
            rw [hfold] at hu
            simp only [except_bind_ok, except_pure_eq_ok, Except.ok.injEq] at hu
            subst hu
            refine ⟨rfl, hext, ?_⟩
            intro d hd idv hid htr
            obtain ⟨m1, m2, hok⟩ :=
              foldlM_processDevice_ok api ds [] m hfold d hd
            exact processDevice_ok_fetches api m1 m2 d idv hok hid htr

/-- C1 witness: a failing device-list fetch yields the failure with no
snapshot; a failing per-device position fetch fails the whole cycle;
and under the healthy oracle that does return a snapshot, both
fetches for device `d1` succeeded. -/
theorem C1_refresh_cycle_all_or_nothing_witness :
    async_update_data apiDevFail true = .failed (.httpError 500 .null)
    ∧ (∃ e, async_update_data apiPosFail true = .failed e)
    ∧ ((∃ p, apiHealthy.extended (.str "d1") "position" = .ok p)
        ∧ (∃ q, apiHealthy.extended (.str "d1") "voltage" = .ok q)) :=
  ⟨(C1_refresh_cycle_all_or_nothing apiDevFail).1 _ rfl,
   (C1_refresh_cycle_all_or_nothing apiPosFail).2.1
      _ _ (.obj [("id", .str "d1"), ("name", .str "Car")]) (.str "d1")
      rfl rfl (List.mem_singleton.mpr rfl) rfl rfl
      (.inl ⟨.apiError (.str "boom"), rfl⟩),
   ((C1_refresh_cycle_all_or_nothing apiHealthy).2.2 snapHealthy rfl).2.2
      (.obj [("id", .str "d1"), ("name", .str "Car")])
      (List.mem_singleton.mpr rfl) (.str "d1") rfl rfl⟩

end SweTrack
